import Mathlib

/-!
Verification of the simulated-trading core of the Bot-de-Investimentos-Binance
repository: the `Portfolio` ledger (src/portfolio.py), the JSON persistence
layer (src/data_manager.py) and the moving-average strategy contract
(src/moving_average_strategy.py), embedded shallowly in Lean 4.

Modelling conventions:
* Python floats are modelled as exact rationals (`ℚ`).  Every concrete input
  used below keeps all intermediate Python float computations exact (small
  integers and halves), so the evaluations transfer to float semantics.
* A Python method that can raise is modelled as a function into
  `Except (PyError × Portfolio) _`: an error value carries the exception
  together with the object state at the moment the exception is raised, so
  "the operation left the state unchanged" is a provable statement rather
  than a modelling assumption.
* The JSON file behind `DataManager` is modelled as `Option Json`: `none`
  stands for an absent or unparseable file (both `except` branches of
  `load_data`), `some j` for a file whose parsed content is `j`.
* `datetime.utcnow()` is environmental; the timestamp is passed in as an
  explicit argument `ts`.
-/

/-- Python exception values raised by the embedded code. -/
inductive PyError where
  | valueError (msg : String)
  | runtimeError (msg : String)
  | zeroDivisionError
  | attributeError
deriving DecidableEq, Repr

/-- One record of `Portfolio._trade_history` (src/portfolio.py, lines
117-124 and 129-135).  `amount` is the dict entry keyed "cost" for a BUY
and "proceeds" for a SELL. -/
structure Trade where
  side : String
  price : ℚ
  quantity : ℚ
  amount : ℚ
  timestamp : String
deriving DecidableEq, Repr

/-- The state of a `Portfolio` object (src/portfolio.py):
`_usdt_balance`, `_crypto_balance`, `_trade_history` and the separate
holdings field `asset`. -/
structure Portfolio where
  usdt_balance : ℚ
  crypto_balance : ℚ
  trade_history : List Trade
  asset : ℚ
deriving DecidableEq, Repr

/-- `Portfolio.__init__` (src/portfolio.py, lines 27-37). -/
def Portfolio.init (initial_capital : ℚ) : Portfolio :=
  { usdt_balance := initial_capital
    crypto_balance := 0
    trade_history := []
    asset := 0 }

/-- Python `str.upper` restricted to the ASCII arguments used here
(written over the character list so that it evaluates by reduction). -/
def pyUpper (s : String) : String := ⟨s.data.map Char.toUpper⟩

/-- `Portfolio.update_balance` (src/portfolio.py, lines 99-138): updates
`_usdt_balance` and `_crypto_balance` from a trade and appends one record
to `_trade_history`; raises `ValueError` for any side other than
BUY/SELL (after upcasing). -/
def Portfolio.update_balance (p : Portfolio) (price quantity : ℚ)
    (side ts : String) : Except (PyError × Portfolio) Portfolio :=
  let sideU := pyUpper side
  if sideU = "BUY" then
    let cost := price * quantity
    .ok { p with
      usdt_balance := p.usdt_balance - cost
      crypto_balance := p.crypto_balance + quantity
      trade_history := p.trade_history ++
        [{ side := "BUY", price := price, quantity := quantity,
           amount := cost, timestamp := ts }] }
  else if sideU = "SELL" then
    let proceeds := price * quantity
    .ok { p with
      crypto_balance := p.crypto_balance - quantity
      usdt_balance := p.usdt_balance + proceeds
      trade_history := p.trade_history ++
        [{ side := "SELL", price := price, quantity := quantity,
           amount := proceeds, timestamp := ts }] }
  else
    .error (.valueError "side must be BUY or SELL", p)

/-- `Portfolio.execute_buy` (src/portfolio.py, lines 140-172).  Sizing
resolution follows the source exactly: `mode == "auto"` overwrites
`amount_usdt` with the full balance, otherwise a given `percent` is used,
otherwise the explicit `amount_usdt`.  The division `amount_usdt / price`
raises `ZeroDivisionError` at `price = 0` (before any mutation); there is
no other price validation in the source.  Note the source subtracts
`amount_usdt` itself and then calls `update_balance`, which subtracts the
cost again. -/
def Portfolio.execute_buy (p : Portfolio) (price : ℚ)
    (amount_usdt percent : Option ℚ) (mode ts : String) :
    Except (PyError × Portfolio) (ℚ × Portfolio) :=
  let resolved : Option ℚ :=
    if mode = "auto" then some p.usdt_balance
    else
      match percent with
      | some pc => some (p.usdt_balance * (pc / 100))
      | none => amount_usdt
  match resolved with
  | none => .error (.valueError "Provide amount_usdt, percent OR mode=auto.", p)
  | some amt =>
    if amt > p.usdt_balance then
      .error (.runtimeError "Not enough USDT to buy", p)
    else if price = 0 then
      .error (.zeroDivisionError, p)
    else
      let quantity := amt / price
      let p1 : Portfolio :=
        { p with asset := p.asset + quantity, usdt_balance := p.usdt_balance - amt }
      match p1.update_balance price quantity "BUY" ts with
      | .error e => .error e
      | .ok p2 => .ok (quantity, p2)

/-- `Portfolio.execute_sell` (src/portfolio.py, lines 174-206).  Sizing is
resolved against the `asset` field; the source adds the proceeds itself and
then calls `update_balance`, which adds them again, and it returns the sold
`quantity` (not the proceeds). -/
def Portfolio.execute_sell (p : Portfolio) (price : ℚ)
    (quantity percent : Option ℚ) (mode ts : String) :
    Except (PyError × Portfolio) (ℚ × Portfolio) :=
  let resolved : Option ℚ :=
    if mode = "auto" then some p.asset
    else
      match percent with
      | some pc => some (p.asset * (pc / 100))
      | none => quantity
  match resolved with
  | none => .error (.valueError "Provide quantity, percent OR mode=auto.", p)
  | some q =>
    if q > p.asset then
      .error (.runtimeError "Not enough asset to sell", p)
    else
      let proceeds := q * price
      let p1 : Portfolio :=
        { p with asset := p.asset - q, usdt_balance := p.usdt_balance + proceeds }
      match p1.update_balance price q "SELL" ts with
      | .error e => .error e
      | .ok p2 => .ok (q, p2)

/-- `Portfolio.get_total_value_usdt` (src/portfolio.py, lines 208-222). -/
def Portfolio.get_total_value_usdt (p : Portfolio) (current_price : ℚ) : ℚ :=
  p.usdt_balance + p.crypto_balance * current_price


lemma pyUpper_buy : pyUpper "BUY" = "BUY" := by decide

lemma pyUpper_sell : pyUpper "SELL" = "SELL" := by decide

/-- Evaluated form of `update_balance` on side "BUY". -/
lemma update_balance_buy_eq (p : Portfolio) (price quantity : ℚ) (ts : String) :
    p.update_balance price quantity "BUY" ts =
      .ok { usdt_balance := p.usdt_balance - price * quantity
            crypto_balance := p.crypto_balance + quantity
            trade_history := p.trade_history ++
              [{ side := "BUY", price := price, quantity := quantity,
                 amount := price * quantity, timestamp := ts }]
            asset := p.asset } := by
  simp [Portfolio.update_balance, pyUpper_buy]

/-- Evaluated form of `update_balance` on side "SELL". -/
lemma update_balance_sell_eq (p : Portfolio) (price quantity : ℚ) (ts : String) :
    p.update_balance price quantity "SELL" ts =
      .ok { usdt_balance := p.usdt_balance + price * quantity
            crypto_balance := p.crypto_balance - quantity
            trade_history := p.trade_history ++
              [{ side := "SELL", price := price, quantity := quantity,
                 amount := price * quantity, timestamp := ts }]
            asset := p.asset } := by
  simp [Portfolio.update_balance, pyUpper_sell]

/-- Any successful `execute_buy` adds the returned quantity to both holdings
fields, `asset` and `crypto_balance`. -/
lemma execute_buy_ok_holdings (p : Portfolio) (price : ℚ) (a pc : Option ℚ)
    (mode ts : String) (q : ℚ) (p2 : Portfolio)
    (h : p.execute_buy price a pc mode ts = .ok (q, p2)) :
    p2.asset = p.asset + q ∧ p2.crypto_balance = p.crypto_balance + q := by
  simp only [Portfolio.execute_buy] at h
  split at h
  · exact absurd h (by simp)
  · split at h
    · exact absurd h (by simp)
    · split at h
      · exact absurd h (by simp)
      · rw [update_balance_buy_eq] at h
        simp only [Except.ok.injEq, Prod.mk.injEq] at h
        obtain ⟨hq, hp2⟩ := h
        subst hq
        subst hp2
        constructor <;> rfl

/-- Any successful `execute_sell` removes the returned quantity from both
holdings fields, `asset` and `crypto_balance`. -/
lemma execute_sell_ok_holdings (p : Portfolio) (price : ℚ) (a pc : Option ℚ)
    (mode ts : String) (q : ℚ) (p2 : Portfolio)
    (h : p.execute_sell price a pc mode ts = .ok (q, p2)) :
    p2.asset = p.asset - q ∧ p2.crypto_balance = p.crypto_balance - q := by
  simp only [Portfolio.execute_sell] at h
  split at h
  · exact absurd h (by simp)
  · split at h
    · exact absurd h (by simp)
    · rw [update_balance_sell_eq] at h
      simp only [Except.ok.injEq, Prod.mk.injEq] at h
      obtain ⟨hq, hp2⟩ := h
      subst hq
      subst hp2
      constructor <;> rfl


/-- C1: the spec claims a successful buy decreases the fiat balance by
exactly the resolved amount, with the all-in scenario fiat=100, price=10
ending at fiat 0 and asset 10.  Evaluating the source at that exact
scenario: the returned quantity is 10 and both holdings fields end at 10
as claimed, but the fiat balance ends at -100, because `execute_buy`
subtracts the amount and `update_balance` then subtracts the cost again. -/
theorem execute_buy_all_in_eval :
    (Portfolio.init 100).execute_buy 10 none none "auto" "t1" =
      .ok (10, { usdt_balance := -100, crypto_balance := 10,
                 trade_history := [{ side := "BUY", price := 10, quantity := 10,
                                     amount := 100, timestamp := "t1" }],
                 asset := 10 }) := by
  norm_num [Portfolio.execute_buy, Portfolio.init, update_balance_buy_eq]

/-- C2: the spec claims balances stay non-negative after any successful buy.
From the freshly initialised state with fiat 100 (both balances non-negative)
the all-in buy at price 10 succeeds, appends exactly one trade, and leaves
the fiat balance at -100 < 0: the non-negativity invariant fails. -/
theorem execute_buy_negative_fiat_eval :
    ((Portfolio.init 100).execute_buy 10 none none "auto" "t2" =
      .ok (10, { usdt_balance := -100, crypto_balance := 10,
                 trade_history := [{ side := "BUY", price := 10, quantity := 10,
                                     amount := 100, timestamp := "t2" }],
                 asset := 10 })) ∧
    (-100 : ℚ) < 0 ∧
    (Portfolio.init 100).trade_history.length + 1 = 1 := by
  refine ⟨?_, by norm_num, rfl⟩
  norm_num [Portfolio.execute_buy, Portfolio.init, update_balance_buy_eq]

/-- C4 counterexample: with fiat balance 50, `buy(amount_fiat=100, price=10)`
called with the default `mode="auto"` does not raise at all; the default
mode overwrites the explicit amount with the full balance and an all-in buy
proceeds, mutating balances and history. -/
theorem execute_buy_explicit_amount_ignored :
    (Portfolio.init 50).execute_buy 10 (some 100) none "auto" "t4" =
      .ok (5, { usdt_balance := -50, crypto_balance := 5,
                trade_history := [{ side := "BUY", price := 10, quantity := 5,
                                    amount := 50, timestamp := "t4" }],
                asset := 5 }) := by
  norm_num [Portfolio.execute_buy, Portfolio.init, update_balance_buy_eq]

/-- C4 (amended): when the call actually uses the explicit amount — any mode
other than "auto", no percent — an `amount_usdt` exceeding the fiat balance
raises the insufficient-funds error (`RuntimeError` in the source) and the
error carries the portfolio unchanged. -/
theorem execute_buy_insufficient_funds (p : Portfolio) (price amt : ℚ)
    (mode ts : String) (hmode : mode ≠ "auto") (hamt : amt > p.usdt_balance) :
    p.execute_buy price (some amt) none mode ts =
      .error (.runtimeError "Not enough USDT to buy", p) := by
  simp [Portfolio.execute_buy, hmode, hamt]

/-- Witness for `execute_buy_insufficient_funds` at fiat balance 50,
amount 100, price 10. -/
theorem execute_buy_insufficient_funds_witness :
    (Portfolio.init 50).execute_buy 10 (some 100) none "manual" "t4" =
      .error (.runtimeError "Not enough USDT to buy", Portfolio.init 50) :=
  execute_buy_insufficient_funds (Portfolio.init 50) 10 100 "manual" "t4"
    (by decide) (by norm_num [Portfolio.init])

/-- C5: the spec claims a successful sell returns the proceeds q x p and
increases the fiat balance by exactly the proceeds.  Evaluating the source
on a portfolio holding 10 units at price 10: the call returns the sold
quantity 10 (not the proceeds 100), and the fiat balance rises by 200 —
`execute_sell` adds the proceeds and `update_balance` adds them again.
The asset decrease by q and the single appended SELL trade do hold. -/
theorem execute_sell_all_eval :
    ({ usdt_balance := 0, crypto_balance := 10, trade_history := [],
       asset := 10 } : Portfolio).execute_sell 10 none none "auto" "t5" =
      .ok (10, { usdt_balance := 200, crypto_balance := 0,
                 trade_history := [{ side := "SELL", price := 10, quantity := 10,
                                     amount := 100, timestamp := "t5" }],
                 asset := 0 }) := by
  norm_num [Portfolio.execute_sell, update_balance_sell_eq]

/-- C6 counterexample: a buy at the negative price -10 is not rejected with
any parameter error; it completes, records a BUY trade at that price, and
even books a negative quantity. -/
theorem execute_buy_negative_price_completes :
    (Portfolio.init 100).execute_buy (-10) none none "auto" "t6" =
      .ok (-10, { usdt_balance := -100, crypto_balance := -10,
                  trade_history := [{ side := "BUY", price := -10, quantity := -10,
                                      amount := 100, timestamp := "t6" }],
                  asset := -10 }) := by
  norm_num [Portfolio.execute_buy, Portfolio.init, update_balance_buy_eq]

/-- C6 (amended): the unresolvable-sizing half of the claim holds — with no
amount/quantity, no percent and a mode other than "auto", buy and sell both
raise `ValueError` carrying the portfolio unchanged — and a buy at price 0
raises `ZeroDivisionError`, also before any mutation.  Price is otherwise
not validated (see the counterexample). -/
theorem execute_no_sizing_value_error (p : Portfolio) (price : ℚ)
    (mode ts : String) (hmode : mode ≠ "auto") :
    p.execute_buy price none none mode ts =
      .error (.valueError "Provide amount_usdt, percent OR mode=auto.", p) ∧
    p.execute_sell price none none mode ts =
      .error (.valueError "Provide quantity, percent OR mode=auto.", p) ∧
    p.execute_buy 0 none none "auto" ts = .error (.zeroDivisionError, p) := by
  refine ⟨?_, ?_, ?_⟩
  · simp [Portfolio.execute_buy, hmode]
  · simp [Portfolio.execute_sell, hmode]
  · simp [Portfolio.execute_buy]

/-- Witness for `execute_no_sizing_value_error` at a concrete portfolio and
mode. -/
theorem execute_no_sizing_value_error_witness :
    (Portfolio.init 7).execute_buy 3 none none "x" "t" =
      .error (.valueError "Provide amount_usdt, percent OR mode=auto.", Portfolio.init 7) ∧
    (Portfolio.init 7).execute_sell 3 none none "x" "t" =
      .error (.valueError "Provide quantity, percent OR mode=auto.", Portfolio.init 7) ∧
    (Portfolio.init 7).execute_buy 0 none none "auto" "t" =
      .error (.zeroDivisionError, Portfolio.init 7) :=
  execute_no_sizing_value_error (Portfolio.init 7) 3 "x" "t" (by decide)

/-- C10: `asset` and `crypto_balance` are both initialised to 0; every
successful `execute_buy` adds the returned quantity to both and every
successful `execute_sell` subtracts the returned quantity from both, so
`asset = crypto_balance` is preserved by every buy and sell. -/
theorem asset_crypto_balance_invariant :
    (∀ c : ℚ, (Portfolio.init c).asset = 0 ∧ (Portfolio.init c).crypto_balance = 0) ∧
    (∀ (p : Portfolio) (price : ℚ) (a pc : Option ℚ) (mode ts : String)
        (q : ℚ) (p2 : Portfolio),
      p.execute_buy price a pc mode ts = .ok (q, p2) →
      p2.asset = p.asset + q ∧ p2.crypto_balance = p.crypto_balance + q) ∧
    (∀ (p : Portfolio) (price : ℚ) (a pc : Option ℚ) (mode ts : String)
        (q : ℚ) (p2 : Portfolio),
      p.execute_sell price a pc mode ts = .ok (q, p2) →
      p2.asset = p.asset - q ∧ p2.crypto_balance = p.crypto_balance - q) ∧
    (∀ (p : Portfolio) (price : ℚ) (a pc : Option ℚ) (mode ts : String)
        (q : ℚ) (p2 : Portfolio),
      p.asset = p.crypto_balance →
      (p.execute_buy price a pc mode ts = .ok (q, p2) → p2.asset = p2.crypto_balance) ∧
      (p.execute_sell price a pc mode ts = .ok (q, p2) → p2.asset = p2.crypto_balance)) := by
  refine ⟨fun c => ⟨rfl, rfl⟩,
    fun p price a pc mode ts q p2 h => execute_buy_ok_holdings p price a pc mode ts q p2 h,
    fun p price a pc mode ts q p2 h => execute_sell_ok_holdings p price a pc mode ts q p2 h,
    fun p price a pc mode ts q p2 hinv => ⟨fun h => ?_, fun h => ?_⟩⟩
  · obtain ⟨h1, h2⟩ := execute_buy_ok_holdings p price a pc mode ts q p2 h
    rw [h1, h2, hinv]
  · obtain ⟨h1, h2⟩ := execute_sell_ok_holdings p price a pc mode ts q p2 h
    rw [h1, h2, hinv]


/-- Parsed JSON values, the content of the file behind `DataManager`
(src/data_manager.py). -/
inductive Json where
  | null
  | bool (b : Bool)
  | num (q : ℚ)
  | str (s : String)
  | arr (items : List Json)
  | obj (fields : List (String × Json))

/-- Python `dict.get(key, default)` over the field list of a JSON object. -/
def dictGet (fields : List (String × Json)) (key : String) (dflt : Json) : Json :=
  match fields.find? (fun kv => kv.1 == key) with
  | some kv => kv.2
  | none => dflt

/-- The structured default state `DataManager` writes and returns for an
absent or corrupted file:
`{"trades": [], "usdt_balance": None, "crypto_balance": None}`. -/
def defaultStateJson : Json :=
  .obj [("trades", .arr []), ("usdt_balance", .null), ("crypto_balance", .null)]

/-- `DataManager.load_data` (src/data_manager.py, lines 58-85): returns the
parsed file content; on `JSONDecodeError` or `FileNotFoundError` (modelled
as `none`) it resets the file and returns the structured default state. -/
def DataManager.load_data (file : Option Json) : Json :=
  match file with
  | none => defaultStateJson
  | some j => j

/-- The structured state `charge_data` returns (src/data_manager.py,
lines 119-135): a dict with keys "trades", "usdt_balance",
"crypto_balance".  The values are arbitrary JSON, as in the source. -/
structure StoredState where
  trades : Json
  usdt_balance : Json
  crypto_balance : Json

/-- `DataManager.charge_data` (src/data_manager.py, lines 119-135): loads
the file and normalises it to the structured state.  A bare list becomes
`{"trades": list, balances: None}`; a dict is read with `dict.get`
defaults; any other parsed value (a bare number, string, boolean or null)
hits `state.get` on a non-dict and raises `AttributeError`. -/
def DataManager.charge_data (file : Option Json) :
    Except PyError StoredState :=
  match DataManager.load_data file with
  | .arr items => .ok { trades := .arr items, usdt_balance := .null, crypto_balance := .null }
  | .obj fields =>
    .ok { trades := dictGet fields "trades" (.arr [])
          usdt_balance := dictGet fields "usdt_balance" .null
          crypto_balance := dictGet fields "crypto_balance" .null }
  | _ => .error .attributeError

/-- `DataManager.save_state` (src/data_manager.py, lines 137-150): writes
the structured state, normalised to exactly the three keys, to the file.
The returned `Json` is the new file content. -/
def DataManager.save_state (state : StoredState) : Json :=
  .obj [("trades", state.trades),
        ("usdt_balance", state.usdt_balance),
        ("crypto_balance", state.crypto_balance)]

/-- C9: saving any structured state and loading it back returns an equal
state — the same trades and the same balances (including the empty state,
whose trades list is `.arr []`). -/
theorem save_state_charge_data_roundtrip (s : StoredState) :
    DataManager.charge_data (some (DataManager.save_state s)) = .ok s := rfl

/-- C8 counterexample: a parseable backing store holding the bare number 5
is neither a list nor a dict, so `charge_data` hits `int.get` and raises
`AttributeError` — `load` does propagate an error to the caller there. -/
theorem charge_data_scalar_store_raises :
    DataManager.charge_data (some (.num 5)) = .error .attributeError := rfl

/-- C8 (amended): an absent or unparseable store yields the default empty
state (trades `[]`, both balances null) without error; a legacy bare-list
store is upgraded to the structured form with null balances; and any
dict-shaped store is read without error.  Only a parseable store that is
neither a list nor a dict raises (see the counterexample). -/
theorem charge_data_recovers_and_upgrades :
    DataManager.charge_data none =
      .ok { trades := .arr [], usdt_balance := .null, crypto_balance := .null } ∧
    (∀ items : List Json,
      DataManager.charge_data (some (.arr items)) =
        .ok { trades := .arr items, usdt_balance := .null, crypto_balance := .null }) ∧
    (∀ fields : List (String × Json),
      DataManager.charge_data (some (.obj fields)) =
        .ok { trades := dictGet fields "trades" (.arr [])
              usdt_balance := dictGet fields "usdt_balance" .null
              crypto_balance := dictGet fields "crypto_balance" .null }) :=
  ⟨rfl, fun _ => rfl, fun _ => rfl⟩


/-- A trading signal (spec section 3: enum {BUY, SELL, HOLD}). -/
inductive Signal where
  | BUY
  | SELL
  | HOLD
deriving DecidableEq, Repr

/-- One `IndicatorRow` (spec section 3): a candle close extended with the
optional short and long moving averages. -/
structure IndicatorRow where
  close : ℚ
  short_ma : Option ℚ
  long_ma : Option ℚ
deriving DecidableEq, Repr

/-- The (short_ma, long_ma) pair of a row when both are defined. -/
def usablePair (r : IndicatorRow) : Option (ℚ × ℚ) :=
  match r.short_ma, r.long_ma with
  | some s, some l => some (s, l)
  | _, _ => none

/-- Modelled from the spec: `MovingAverageStrategy.check_signal`
(src/moving_average_strategy.py, lines 91-106) has an empty `pass` body, so
the crossover rule is taken from spec section 4.1: with fewer than two rows
having both averages defined, HOLD; otherwise, with prev and last the last
two such rows, BUY on prev.short <= prev.long and last.short > last.long,
SELL on prev.short >= prev.long and last.short < last.long, HOLD in every
other case. -/
def check_signal (rows : List IndicatorRow) : Signal :=
  let u := rows.filterMap usablePair
  if hu : 2 ≤ u.length then
    let prev := u.get ⟨u.length - 2, by omega⟩
    let last := u.get ⟨u.length - 1, by omega⟩
    if prev.1 ≤ prev.2 ∧ last.1 > last.2 then .BUY
    else if prev.1 ≥ prev.2 ∧ last.1 < last.2 then .SELL
    else .HOLD
  else .HOLD

/-- C3: `check_signal` is total (hence never raises) and pure by
construction; it returns HOLD whenever fewer than two rows have both
averages defined, and otherwise its value is characterised exactly by the
crossover inequalities on the last two such rows. -/
theorem check_signal_characterization (rows : List IndicatorRow) :
    ((rows.filterMap usablePair).length < 2 → check_signal rows = Signal.HOLD) ∧
    (∀ (prev last : ℚ × ℚ), 2 ≤ (rows.filterMap usablePair).length →
      (rows.filterMap usablePair).get? ((rows.filterMap usablePair).length - 2) = some prev →
      (rows.filterMap usablePair).get? ((rows.filterMap usablePair).length - 1) = some last →
      ((check_signal rows = Signal.BUY ↔ prev.1 ≤ prev.2 ∧ last.1 > last.2) ∧
       (check_signal rows = Signal.SELL ↔ prev.1 ≥ prev.2 ∧ last.1 < last.2) ∧
       (check_signal rows = Signal.HOLD ↔
         ¬(prev.1 ≤ prev.2 ∧ last.1 > last.2) ∧
         ¬(prev.1 ≥ prev.2 ∧ last.1 < last.2)))) := by
  constructor
  · intro h
    unfold check_signal
    rw [dif_neg (by omega)]
  · intro prev last h hp hl
    have hp2 : (rows.filterMap usablePair).length - 2 < (rows.filterMap usablePair).length := by omega
    have hl2 : (rows.filterMap usablePair).length - 1 < (rows.filterMap usablePair).length := by omega
    rw [List.get?_eq_get hp2] at hp
    rw [List.get?_eq_get hl2] at hl
    have hp' := Option.some.inj hp
    have hl' := Option.some.inj hl
    unfold check_signal
    rw [dif_pos h, hp', hl']
    by_cases h1 : prev.1 ≤ prev.2 ∧ last.1 > last.2
    · by_cases h2 : prev.1 ≥ prev.2 ∧ last.1 < last.2
      · exact absurd (h1.2.trans h2.2) (lt_irrefl _)
      · simp [h1, h2]
    · by_cases h2 : prev.1 ≥ prev.2 ∧ last.1 < last.2
      · simp [h1, h2]
      · simp [h1, h2]


/-- Arithmetic mean of a list of rationals. -/
def listMean (l : List ℚ) : ℚ := l.sum / l.length

/-- The trailing minimum-one-observation window ending at position `i`:
the last `min p (i+1)` closes among the first `i+1`. -/
def trailingSlice (p : ℕ) (closes : List ℚ) (i : ℕ) : List ℚ :=
  (closes.take (i + 1)).drop (i + 1 - p)

/-- Modelled from the spec: `MovingAverageStrategy.calculate_indicators`
(src/moving_average_strategy.py, lines 76-89) has an empty `pass` body, so
the rolling-average computation is taken from spec section 4.1: one row per
candle, short_ma[i] the arithmetic mean of close[max(0, i-short+1) .. i]
("minimum one observation" semantics), long_ma analogous, and
`InvalidInputError` (a ValueError here) when the period constraints
0 < short < long are violated. -/
def calculate_indicators (short_window long_window : ℕ) (closes : List ℚ) :
    Except PyError (List IndicatorRow) :=
  if 0 < short_window ∧ short_window < long_window then
    .ok ((List.range closes.length).map fun i =>
      { close := closes.getD i 0
        short_ma := some (listMean (trailingSlice short_window closes i))
        long_ma := some (listMean (trailingSlice long_window closes i)) })
  else
    .error (.valueError "invalid window periods")

/-- The take-then-drop window of the implementation is the
drop-then-take slice `close[max(0, i-p+1) .. i]` of the claim. -/
lemma trailingSlice_eq (p : ℕ) (closes : List ℚ) (i : ℕ) :
    trailingSlice p closes i =
      (closes.drop (i + 1 - p)).take (i + 1 - (i + 1 - p)) :=
  List.drop_take (i + 1) (i + 1 - p) closes

/-- C7: for valid periods `0 < short < long` and a non-empty close series,
`calculate_indicators` succeeds with exactly one row per candle, and the
row at any position `i` carries the candle close together with defined
(never absent) short and long averages, each the arithmetic mean of the
trailing window `close[max(0, i-period+1) .. i]` (natural subtraction
`i + 1 - period` realises the `max(0, ...)` lower bound). -/
theorem calculate_indicators_rows (short long : ℕ) (closes : List ℚ)
    (rows : List IndicatorRow) (i : ℕ)
    (hshort : 0 < short) (hlt : short < long) (hne : closes ≠ [])
    (hrows : calculate_indicators short long closes = .ok rows)
    (hi : i < closes.length) :
    rows.length = closes.length ∧
    rows.getD i ⟨0, none, none⟩ =
      { close := closes.getD i 0
        short_ma := some (listMean
          ((closes.drop (i + 1 - short)).take (i + 1 - (i + 1 - short))))
        long_ma := some (listMean
          ((closes.drop (i + 1 - long)).take (i + 1 - (i + 1 - long)))) } := by
  rw [calculate_indicators, if_pos ⟨hshort, hlt⟩] at hrows
  injection hrows with hrows'
  subst hrows'
  constructor
  · simp
  · rw [List.getD_eq_getElem?_getD, List.getElem?_map, List.getElem?_range hi]
    simp [trailingSlice_eq]

/-- Witness for `calculate_indicators_rows`: periods (2, 4) on the series
[10, 12], position 1. -/
theorem calculate_indicators_rows_witness :
    ([({ close := 10, short_ma := some 10, long_ma := some 10 } : IndicatorRow),
      { close := 12, short_ma := some 11, long_ma := some 11 }].length
        = ([10, 12] : List ℚ).length) ∧
    ([({ close := 10, short_ma := some 10, long_ma := some 10 } : IndicatorRow),
      { close := 12, short_ma := some 11, long_ma := some 11 }].getD 1 ⟨0, none, none⟩ =
      { close := ([10, 12] : List ℚ).getD 1 0
        short_ma := some (listMean
          ((([10, 12] : List ℚ).drop (1 + 1 - 2)).take (1 + 1 - (1 + 1 - 2))))
        long_ma := some (listMean
          ((([10, 12] : List ℚ).drop (1 + 1 - 4)).take (1 + 1 - (1 + 1 - 4)))) }) :=
  calculate_indicators_rows 2 4 [10, 12]
    [{ close := 10, short_ma := some 10, long_ma := some 10 },
     { close := 12, short_ma := some 11, long_ma := some 11 }] 1
    (by norm_num) (by norm_num) (by simp)
    (by norm_num [calculate_indicators, trailingSlice, listMean, List.range_succ])
    (by norm_num)
